import Mathlib

/-!
Verification of the persistent job-queue core of the musicgen repository:
the `Job` record (`app/models/job.py`), the `JobQueueService` operations
(`app/services/job_queue.py`) and the delete endpoint (`app/api/jobs.py`),
shallowly embedded over a list-of-rows store with explicit integer time.
-/

namespace Musicgen

/-- Job status values of the `JobStatus` str-enum in `app/models/job.py`. -/
inductive JobStatus where
  | queued
  | processing
  | completed
  | failed
  | pending
  | loading_model
  | preparing_prompt
  | generating_audio
  | exporting
  | analyzing
  | rendering
deriving DecidableEq, Repr

/-- Opaque JSON-object payloads (`request_data` / `result_data`) as association lists. -/
abbrev JsonData := List (String × String)

/-- The persisted Job row of `app/models/job.py`. Timestamps are abstract integer
ticks supplied by the caller in place of `datetime.now`; the ORM-managed
`updated_at` column is not modelled (no claim concerns it). -/
structure Job where
  id : String
  status : JobStatus
  progress : Int
  job_type : String
  priority : Int
  request_data : Option JsonData
  result_data : Option JsonData
  message : Option String
  error : Option String
  created_at : Int
  started_at : Option Int
  completed_at : Option Int
  worker_id : Option String
deriving DecidableEq, Repr

/-- Default message stored by `Job.mark_completed`. -/
def completedMsg : String := "Job completed successfully"

/-- Default message stored by `Job.mark_failed`. -/
def failedMsg : String := "Job failed"

/-- Default error stored on a FAILED transition with no explicit error. -/
def unknownErrorMsg : String := "Unknown error"

/-- Python truthiness of an optional string: `None` and `""` are falsy. -/
def strTruthy : Option String → Bool
  | none => false
  | some s => s != ""

/-- Python truthiness of an optional dict: `None` and `{}` are falsy. -/
def dataTruthy : Option JsonData → Bool
  | none => false
  | some d => !d.isEmpty

/-- Python truthiness of an optional list: `None` and `[]` are falsy. -/
def typesTruthy : Option (List String) → Bool
  | none => false
  | some l => !l.isEmpty

/-- Python `e or d` on an optional string `e`. -/
def orElseStr (e : Option String) (d : String) : String :=
  match e with
  | none => d
  | some s => if s = "" then d else s

/-- `Job.is_finished` (`job.py`): terminal states. -/
def Job.is_finished (j : Job) : Bool :=
  decide (j.status = .completed ∨ j.status = .failed)

/-- `Job.is_active` (`job.py`): every non-terminal state, QUEUED and PENDING included. -/
def Job.is_active (j : Job) : Bool :=
  decide (j.status = .queued ∨ j.status = .processing ∨ j.status = .pending ∨
    j.status = .loading_model ∨ j.status = .preparing_prompt ∨
    j.status = .generating_audio ∨ j.status = .exporting ∨
    j.status = .analyzing ∨ j.status = .rendering)

/-- `Job.mark_started` (`job.py`): stamps `started_at` with the current time and
assigns `worker_id`, even when the argument is `None`. -/
def Job.mark_started (j : Job) (now : Int) (wid : Option String) : Job :=
  { j with started_at := some now, worker_id := wid }

/-- `Job.mark_completed` (`job.py`): sets status, forces progress to 100, stamps
`completed_at`, attaches truthy result data, defaults the message when falsy. -/
def Job.mark_completed (j : Job) (now : Int) (result_data : Option JsonData) : Job :=
  let j1 : Job := { j with status := .completed, progress := 100, completed_at := some now }
  let j2 : Job := if dataTruthy result_data then { j1 with result_data := result_data } else j1
  if strTruthy j2.message then j2 else { j2 with message := some completedMsg }

/-- `Job.mark_failed` (`job.py`): sets status, stamps `completed_at`, stores the
error, overrides the message when one is truthy, else defaults it when falsy. -/
def Job.mark_failed (j : Job) (now : Int) (error : String) (message : Option String) : Job :=
  let j1 : Job := { j with status := .failed, completed_at := some now, error := some error }
  if strTruthy message then { j1 with message := message }
  else if strTruthy j1.message then j1
  else { j1 with message := some failedMsg }

/-- The status assignment and auto-timestamp hook of `JobQueueService.update_job`
(`job_queue.py` lines 151-160): sets the status, then runs `mark_started` on a
PROCESSING transition with null `started_at`, `mark_completed` on COMPLETED, and
`mark_failed` (with the `error or unknown-error` default) on FAILED. -/
def applyStatusHook (j : Job) (now : Int) (s : JobStatus) (message : Option String)
    (error : Option String) (result_data : Option JsonData)
    (worker_id : Option String) : Job :=
  let js : Job := { j with status := s }
  if s = .processing ∧ j.started_at = none then js.mark_started now worker_id
  else if s = .completed then js.mark_completed now result_data
  else if s = .failed then js.mark_failed now (orElseStr error unknownErrorMsg) message
  else js

/-- The optional per-field assignments of `JobQueueService.update_job`
(`job_queue.py` lines 162-175), in source order: clamped progress, message,
error, result_data, worker_id, each applied only when supplied. -/
def applyFieldUpdates (j1 : Job) (progress : Option Int) (message : Option String)
    (error : Option String) (result_data : Option JsonData)
    (worker_id : Option String) : Job :=
  let j2 :=
    match progress with
    | none => j1
    | some p => { j1 with progress := max 0 (min 100 p) }
  let j3 :=
    match message with
    | none => j2
    | some m => { j2 with message := some m }
  let j4 :=
    match error with
    | none => j3
    | some e => { j3 with error := some e }
  let j5 :=
    match result_data with
    | none => j4
    | some r => { j4 with result_data := some r }
  match worker_id with
  | none => j5
  | some w => { j5 with worker_id := some w }

/-- The field-update body of `JobQueueService.update_job` (`job_queue.py` lines
150-175) applied to the row found for the id: the status hook runs first (only
when a status is supplied), then the per-field assignments. -/
def updateJobFields (j : Job) (now : Int) (status : Option JobStatus) (progress : Option Int)
    (message : Option String) (error : Option String) (result_data : Option JsonData)
    (worker_id : Option String) : Job :=
  applyFieldUpdates
    (match status with
     | none => j
     | some s => applyStatusHook j now s message error result_data worker_id)
    progress message error result_data worker_id

/-- `JobQueueService.get_job` (`job_queue.py`): first row with the given id. -/
def get_job (db : List Job) (job_id : String) : Option Job :=
  db.find? fun j => j.id == job_id

/-- `JobQueueService.enqueue_job` (`job_queue.py`): inserts a fresh row with
`progress = 0` and null bookkeeping fields; the uuid4 id and the DB-assigned
creation time are passed in explicitly. -/
def enqueue_job (db : List Job) (now : Int) (job_id : String) (job_type : String)
    (request_data : JsonData) (priority : Int) (status : JobStatus) : String × List Job :=
  let job : Job :=
    { id := job_id, status := status, progress := 0, job_type := job_type,
      priority := priority, request_data := some request_data, result_data := none,
      message := none, error := none, created_at := now, started_at := none,
      completed_at := none, worker_id := none }
  (job_id, db ++ [job])

/-- `JobQueueService.update_job` (`job_queue.py`): false when the id is absent,
otherwise rewrites the row through `updateJobFields` and returns true. -/
def update_job (db : List Job) (now : Int) (job_id : String) (status : Option JobStatus)
    (progress : Option Int) (message : Option String) (error : Option String)
    (result_data : Option JsonData) (worker_id : Option String) : Bool × List Job :=
  match db.find? (fun j => j.id == job_id) with
  | none => (false, db)
  | some j =>
    let j2 := updateJobFields j now status progress message error result_data worker_id
    (true, db.map fun x => if x.id == job_id then j2 else x)

/-- `JobQueueService.update_progress` (`job_queue.py`): convenience wrapper of
`update_job` supplying only progress and message. -/
def update_progress (db : List Job) (now : Int) (job_id : String) (progress : Int)
    (message : Option String) : Bool × List Job :=
  update_job db now job_id none (some progress) message none none none

/-- Strict "served strictly earlier" order of `ORDER BY priority DESC, created_at`. -/
def jobBefore (a b : Job) : Prop :=
  b.priority < a.priority ∨ (a.priority = b.priority ∧ a.created_at < b.created_at)

instance (a b : Job) : Decidable (jobBefore a b) := by
  unfold jobBefore
  infer_instance

/-- First row of the ordered query; ties keep the earlier list position. -/
def pickBest : List Job → Option Job
  | [] => none
  | j :: rest =>
    match pickBest rest with
    | none => some j
    | some k => if jobBefore k j then some k else some j

/-- The candidate set of `get_next_job`: rows in QUEUED or PENDING, restricted to
the given job types when that list is truthy (a `None` or empty list applies no
type filter, per Python truthiness). -/
def eligibleJobs (db : List Job) (job_types : Option (List String)) : List Job :=
  let q := db.filter fun j => decide (j.status = .queued ∨ j.status = .pending)
  if typesTruthy job_types then
    q.filter fun j => (job_types.getD []).contains j.job_type
  else q

/-- `JobQueueService.get_next_job` (`job_queue.py` lines 244-281): picks the best
eligible row; when a truthy worker id is supplied it sets the row to PROCESSING
and runs `mark_started` before committing, otherwise the store is untouched. -/
def get_next_job (db : List Job) (now : Int) (job_types : Option (List String))
    (worker_id : Option String) : Option Job × List Job :=
  match pickBest (eligibleJobs db job_types) with
  | none => (none, db)
  | some j =>
    if strTruthy worker_id then
      let j2 := Job.mark_started { j with status := JobStatus.processing } now worker_id
      (some j2, db.map fun x => if x.id == j.id then j2 else x)
    else (some j, db)

/-- Row predicate of the delete query in `JobQueueService.cleanup_old_jobs`:
older than the cutoff and matching the status filter, which defaults to the
two terminal states. A day is 86400 ticks. -/
def cleanupTarget (now days : Int) (status : Option JobStatus) (j : Job) : Bool :=
  decide (j.created_at < now - days * 86400) &&
    (match status with
     | some s => decide (j.status = s)
     | none => j.is_finished)

/-- `JobQueueService.cleanup_old_jobs` (`job_queue.py` lines 314-344): counts the
matching rows, deletes them, and returns the count beside the remaining store. -/
def cleanup_old_jobs (db : List Job) (now days : Int) (status : Option JobStatus) :
    Nat × List Job :=
  ((db.filter (cleanupTarget now days status)).length,
   db.filter fun j => !(cleanupTarget now days status j))

/-- Error outcomes of the delete endpoint. -/
inductive ApiError where
  | notFound
  | badRequest
deriving DecidableEq, Repr

/-- `DELETE /api/jobs/{job_id}` (`api/jobs.py` lines 310-336) with its
`get_job_by_id` dependency: 404 when the id is absent, 400 when the job
`is_active` (the store is untouched in both cases), otherwise the row is
removed from the store. -/
def delete_job (db : List Job) (job_id : String) : Option ApiError × List Job :=
  match get_job db job_id with
  | none => (some ApiError.notFound, db)
  | some j =>
    if j.is_active then (some ApiError.badRequest, db)
    else (none, db.filter fun x => !(x.id == job_id))

/-- Sample ids and worker names used by the concrete scenarios. -/
def idA : String := "a"

def idP : String := "p"

def idC : String := "c"

def idHi : String := "hi"

def idLo : String := "lo"

def idOld : String := "old"

def idNew : String := "new"

def wk1 : String := "w1"

def wk2 : String := "w2"

def musicType : String := "musicgen"

/-- A freshly enqueued QUEUED job, never started. -/
def baseJob : Job :=
  { id := idA, status := .queued, progress := 0, job_type := musicType, priority := 0,
    request_data := some [], result_data := none, message := none, error := none,
    created_at := 1, started_at := none, completed_at := none, worker_id := none }

/-- A job in the PROCESSING active sub-state. -/
def processingJob : Job :=
  { baseJob with id := idP, status := .processing, started_at := some 1, worker_id := some wk1 }

/-- A COMPLETED job. -/
def completedJob : Job :=
  { baseJob with
    id := idC, status := .completed, progress := 100,
    started_at := some 1, completed_at := some 2 }

/-- An old terminal job, eligible for retention cleanup. -/
def oldDoneJob : Job :=
  { completedJob with id := idOld, created_at := 0 }

/-- A recent QUEUED job, not eligible for retention cleanup. -/
def freshJob : Job :=
  { baseJob with id := idNew, created_at := 199999 }

/-- A QUEUED job carrying a non-null started_at from an earlier processing round. -/
def requeuedJob : Job :=
  { baseJob with started_at := some 1, worker_id := some wk1 }

/-- The two-job store of the priority scenario: priority 10 enqueued first,
priority 1 enqueued second, both QUEUED. -/
def db4 : List Job :=
  (enqueue_job (enqueue_job [] 1 idHi musicType [] 10 .queued).2 2 idLo musicType [] 1 .queued).2

theorem jobBefore_irrefl (a : Job) : ¬ jobBefore a a := by
  unfold jobBefore
  omega

theorem jobBefore_asymm {a b : Job} (h : jobBefore a b) : ¬ jobBefore b a := by
  unfold jobBefore at h ⊢
  omega

theorem not_jobBefore_trans {a b c : Job} (hab : ¬ jobBefore a b) (hbc : ¬ jobBefore b c) :
    ¬ jobBefore a c := by
  unfold jobBefore at hab hbc ⊢
  omega

theorem pickBest_eq_none {l : List Job} (h : pickBest l = none) : l = [] := by
  cases l with
  | nil => rfl
  | cons a rest =>
    rw [pickBest] at h
    cases hr : pickBest rest <;> simp [hr] at h
    split at h <;> simp at h

theorem pickBest_mem {l : List Job} {j : Job} (h : pickBest l = some j) : j ∈ l := by
  induction l with
  | nil => simp [pickBest] at h
  | cons a rest ih =>
    rw [pickBest] at h
    cases hr : pickBest rest with
    | none =>
      rw [hr] at h
      simp at h
      simp [h]
    | some k =>
      rw [hr] at h
      dsimp only at h
      by_cases hka : jobBefore k a
      · rw [if_pos hka] at h
        simp at h
        subst h
        exact List.mem_cons_of_mem a (ih hr)
      · rw [if_neg hka] at h
        simp at h
        simp [h]

theorem pickBest_best (l : List Job) : ∀ j : Job, pickBest l = some j →
    ∀ k ∈ l, ¬ jobBefore k j := by
  induction l with
  | nil =>
    intro j h
    simp [pickBest] at h
  | cons a rest ih =>
    intro j h
    rw [pickBest] at h
    cases hr : pickBest rest with
    | none =>
      rw [hr] at h
      simp at h
      have hrest := pickBest_eq_none hr
      subst hrest
      intro k hk
      simp at hk
      subst hk
      subst h
      exact jobBefore_irrefl k
    | some b =>
      rw [hr] at h
      dsimp only at h
      by_cases hba : jobBefore b a
      · rw [if_pos hba] at h
        simp at h
        subst h
        intro k hk
        rcases List.mem_cons.mp hk with hk | hk
        · subst hk
          exact jobBefore_asymm hba
        · exact ih b hr k hk
      · rw [if_neg hba] at h
        simp at h
        subst h
        intro k hk
        rcases List.mem_cons.mp hk with hk | hk
        · subst hk
          exact jobBefore_irrefl k
        · exact not_jobBefore_trans (ih b hr k hk) hba

theorem mem_eligible_mem_db {db : List Job} {ts : Option (List String)} {j : Job}
    (h : j ∈ eligibleJobs db ts) : j ∈ db := by
  unfold eligibleJobs at h
  split at h
  · exact (List.mem_filter.mp (List.mem_filter.mp h).1).1
  · exact (List.mem_filter.mp h).1

theorem mem_eligible_status {db : List Job} {ts : Option (List String)} {j : Job}
    (h : j ∈ eligibleJobs db ts) : j.status = .queued ∨ j.status = .pending := by
  unfold eligibleJobs at h
  split at h
  · have := (List.mem_filter.mp (List.mem_filter.mp h).1).2
    simpa using this
  · have := (List.mem_filter.mp h).2
    simpa using this

theorem mark_started_id (j : Job) (now : Int) (w : Option String) :
    (j.mark_started now w).id = j.id := rfl

theorem mark_completed_id (j : Job) (now : Int) (r : Option JsonData) :
    (j.mark_completed now r).id = j.id := by
  unfold Job.mark_completed
  dsimp only
  split_ifs <;> rfl

theorem mark_failed_id (j : Job) (now : Int) (e : String) (m : Option String) :
    (j.mark_failed now e m).id = j.id := by
  unfold Job.mark_failed
  dsimp only
  split_ifs <;> rfl

theorem mark_completed_progress (j : Job) (now : Int) (r : Option JsonData) :
    (j.mark_completed now r).progress = 100 := by
  unfold Job.mark_completed
  dsimp only
  split_ifs <;> rfl

theorem mark_completed_completed_at (j : Job) (now : Int) (r : Option JsonData) :
    (j.mark_completed now r).completed_at = some now := by
  unfold Job.mark_completed
  dsimp only
  split_ifs <;> rfl

theorem mark_completed_started_at (j : Job) (now : Int) (r : Option JsonData) :
    (j.mark_completed now r).started_at = j.started_at := by
  unfold Job.mark_completed
  dsimp only
  split_ifs <;> rfl

theorem mark_completed_result_data (j : Job) (now : Int) (r : Option JsonData) :
    (j.mark_completed now r).result_data =
      (if dataTruthy r then r else j.result_data) := by
  unfold Job.mark_completed
  dsimp only
  split_ifs <;> rfl

theorem mark_failed_completed_at (j : Job) (now : Int) (e : String) (m : Option String) :
    (j.mark_failed now e m).completed_at = some now := by
  unfold Job.mark_failed
  dsimp only
  split_ifs <;> rfl

theorem mark_failed_started_at (j : Job) (now : Int) (e : String) (m : Option String) :
    (j.mark_failed now e m).started_at = j.started_at := by
  unfold Job.mark_failed
  dsimp only
  split_ifs <;> rfl

theorem mark_failed_error (j : Job) (now : Int) (e : String) (m : Option String) :
    (j.mark_failed now e m).error = some e := by
  unfold Job.mark_failed
  dsimp only
  split_ifs <;> rfl

theorem mark_failed_message_default (j : Job) (now : Int) (e : String)
    (hm : strTruthy j.message = false) :
    (j.mark_failed now e none).message = some failedMsg := by
  unfold Job.mark_failed
  dsimp only
  rw [if_neg (by simp [strTruthy])]
  rw [if_neg (by simp [hm])]

theorem applyFieldUpdates_id (j1 : Job) (p : Option Int) (m e : Option String)
    (r : Option JsonData) (w : Option String) :
    (applyFieldUpdates j1 p m e r w).id = j1.id := by
  unfold applyFieldUpdates
  cases p <;> cases m <;> cases e <;> cases r <;> cases w <;> rfl

theorem applyFieldUpdates_started_at (j1 : Job) (p : Option Int) (m e : Option String)
    (r : Option JsonData) (w : Option String) :
    (applyFieldUpdates j1 p m e r w).started_at = j1.started_at := by
  unfold applyFieldUpdates
  cases p <;> cases m <;> cases e <;> cases r <;> cases w <;> rfl

theorem applyFieldUpdates_completed_at (j1 : Job) (p : Option Int) (m e : Option String)
    (r : Option JsonData) (w : Option String) :
    (applyFieldUpdates j1 p m e r w).completed_at = j1.completed_at := by
  unfold applyFieldUpdates
  cases p <;> cases m <;> cases e <;> cases r <;> cases w <;> rfl

theorem applyFieldUpdates_progress (j1 : Job) (p : Option Int) (m e : Option String)
    (r : Option JsonData) (w : Option String) :
    (applyFieldUpdates j1 p m e r w).progress =
      (match p with
       | none => j1.progress
       | some q => max 0 (min 100 q)) := by
  unfold applyFieldUpdates
  cases p <;> cases m <;> cases e <;> cases r <;> cases w <;> rfl

theorem applyFieldUpdates_error (j1 : Job) (p : Option Int) (m e : Option String)
    (r : Option JsonData) (w : Option String) :
    (applyFieldUpdates j1 p m e r w).error =
      (match e with
       | none => j1.error
       | some s => some s) := by
  unfold applyFieldUpdates
  cases p <;> cases m <;> cases e <;> cases r <;> cases w <;> rfl

theorem applyFieldUpdates_message (j1 : Job) (p : Option Int) (m e : Option String)
    (r : Option JsonData) (w : Option String) :
    (applyFieldUpdates j1 p m e r w).message =
      (match m with
       | none => j1.message
       | some s => some s) := by
  unfold applyFieldUpdates
  cases p <;> cases m <;> cases e <;> cases r <;> cases w <;> rfl

theorem applyFieldUpdates_result_data (j1 : Job) (p : Option Int) (m e : Option String)
    (r : Option JsonData) (w : Option String) :
    (applyFieldUpdates j1 p m e r w).result_data =
      (match r with
       | none => j1.result_data
       | some d => some d) := by
  unfold applyFieldUpdates
  cases p <;> cases m <;> cases e <;> cases r <;> cases w <;> rfl

theorem applyStatusHook_id (j : Job) (now : Int) (s : JobStatus) (m e : Option String)
    (r : Option JsonData) (w : Option String) :
    (applyStatusHook j now s m e r w).id = j.id := by
  unfold applyStatusHook
  dsimp only
  split_ifs <;> simp [mark_started_id, mark_completed_id, mark_failed_id]

theorem applyStatusHook_completed (j : Job) (now : Int) (m e : Option String)
    (r : Option JsonData) (w : Option String) :
    applyStatusHook j now .completed m e r w =
      Job.mark_completed { j with status := .completed } now r := by
  unfold applyStatusHook
  simp

theorem applyStatusHook_failed (j : Job) (now : Int) (m e : Option String)
    (r : Option JsonData) (w : Option String) :
    applyStatusHook j now .failed m e r w =
      Job.mark_failed { j with status := .failed } now (orElseStr e unknownErrorMsg) m := by
  unfold applyStatusHook
  simp

theorem applyStatusHook_started_at (j : Job) (now : Int) (s : JobStatus) (m e : Option String)
    (r : Option JsonData) (w : Option String) :
    (applyStatusHook j now s m e r w).started_at =
      (if s = .processing ∧ j.started_at = none then some now else j.started_at) := by
  unfold applyStatusHook
  dsimp only
  split_ifs with h1 h2 h3 <;>
    simp [Job.mark_started, mark_completed_started_at, mark_failed_started_at]

theorem applyStatusHook_completed_at (j : Job) (now : Int) (s : JobStatus) (m e : Option String)
    (r : Option JsonData) (w : Option String) :
    (applyStatusHook j now s m e r w).completed_at =
      (if s = .completed ∨ s = .failed then some now else j.completed_at) := by
  unfold applyStatusHook
  dsimp only
  split_ifs with h1 h2 h3 <;>
    simp_all [Job.mark_started, mark_completed_completed_at, mark_failed_completed_at]

theorem updateJobFields_id (j : Job) (now : Int) (s : Option JobStatus) (p : Option Int)
    (m e : Option String) (r : Option JsonData) (w : Option String) :
    (updateJobFields j now s p m e r w).id = j.id := by
  unfold updateJobFields
  cases s with
  | none => exact applyFieldUpdates_id j p m e r w
  | some st =>
    rw [applyFieldUpdates_id]
    exact applyStatusHook_id j now st m e r w

theorem find?_map_update (db : List Job) (id : String) (j j2 : Job)
    (h : db.find? (fun x => x.id == id) = some j) (hid : j2.id = j.id) :
    (db.map fun x => if x.id == id then j2 else x).find? (fun x => x.id == id) = some j2 := by
  induction db with
  | nil => simp at h
  | cons a rest ih =>
    by_cases ha : (a.id == id) = true
    · have h1 : a = j := by
        simp [List.find?, ha] at h
        exact h
      subst h1
      rw [List.map_cons, if_pos ha]
      refine List.find?_cons_of_pos _ ?_
      rw [hid]
      exact ha
    · have h2 : List.find? (fun x => x.id == id) rest = some j := by
        simpa [List.find?, ha] using h
      rw [List.map_cons, if_neg ha]
      have hneg : List.find? (fun x => x.id == id)
          (a :: List.map (fun x => if x.id == id then j2 else x) rest)
          = List.find? (fun x => x.id == id)
            (List.map (fun x => if x.id == id then j2 else x) rest) :=
        List.find?_cons_of_neg _ ha
      exact hneg.trans (ih h2)

/-- C2 counterexample: an update call that supplies status COMPLETED together
with progress 50 leaves the job with progress 50, not 100 — the clamped
supplied progress is written after mark_completed forced 100. -/
theorem update_completed_with_progress_overrides :
    ((update_job [processingJob] 5 idP (some .completed) (some 50) none none none
        none).2.find? (fun x => x.id == idP)).map Job.progress = some 50 ∧
    ((update_job [processingJob] 5 idP (some .completed) (some 50) none none none
        none).2.find? (fun x => x.id == idP)).map Job.progress ≠ some 100 := by
  decide

/-- C2 (amended): an update call supplying status COMPLETED stamps completed_at
and attaches any supplied result_data; progress becomes 100 when the call
supplies no progress value, while a progress value supplied in the same call is
stored clamped, overriding the forced 100. -/
theorem update_completed_progress_spec (j : Job) (now : Int) (p : Option Int)
    (m e : Option String) (r : Option JsonData) (w : Option String) :
    (updateJobFields j now (some .completed) p m e r w).progress =
      (match p with
       | none => 100
       | some q => max 0 (min 100 q)) ∧
    (updateJobFields j now (some .completed) p m e r w).completed_at = some now ∧
    (updateJobFields j now (some .completed) p m e r w).result_data =
      (match r with
       | none => j.result_data
       | some d => some d) := by
  unfold updateJobFields
  refine ⟨?_, ?_, ?_⟩
  · rw [applyFieldUpdates_progress]
    cases p with
    | none =>
      dsimp only
      rw [applyStatusHook_completed, mark_completed_progress]
    | some q => rfl
  · rw [applyFieldUpdates_completed_at]
    dsimp only
    rw [applyStatusHook_completed, mark_completed_completed_at]
  · rw [applyFieldUpdates_result_data]
    cases r with
    | none =>
      dsimp only
      rw [applyStatusHook_completed, mark_completed_result_data]
      simp [dataTruthy]
    | some d => rfl

/-- C3 counterexample: a QUEUED job updated into the active sub-state
LOADING_MODEL has transitioned into an active sub-state, yet started_at is
still null afterwards — only a PROCESSING status stamps it. -/
theorem update_loading_model_leaves_started_at_null :
    ((update_job [baseJob] 5 idA (some .loading_model) none none none none
        none).2.find? (fun x => x.id == idA)).map Job.status = some .loading_model ∧
    ((update_job [baseJob] 5 idA (some .loading_model) none none none none
        none).2.find? (fun x => x.id == idA)).map Job.started_at = some none := by
  decide

/-- C3 (amended): update_job stamps started_at exactly when the supplied status
is PROCESSING and started_at is currently null (idempotent there; no other
supplied status touches it); get_next_job with a truthy worker id, however,
restamps started_at of the job it claims unconditionally, even when it was
already non-null. -/
theorem started_at_stamp_spec (j : Job) (now : Int) (s : Option JobStatus) (p : Option Int)
    (m e : Option String) (r : Option JsonData) (w : Option String) :
    ((updateJobFields j now s p m e r w).started_at =
      (if s = some .processing ∧ j.started_at = none then some now else j.started_at)) ∧
    (∀ (db : List Job) (ts : Option (List String)) (ww : String) (jj : Job),
      pickBest (eligibleJobs db ts) = some jj → ww ≠ "" →
      (get_next_job db now ts (some ww)).1.map Job.started_at = some (some now)) := by
  constructor
  · unfold updateJobFields
    rw [applyFieldUpdates_started_at]
    cases s with
    | none => simp
    | some st =>
      dsimp only
      rw [applyStatusHook_started_at]
      simp only [Option.some.injEq]
  · intro db ts ww jj hpick hww
    unfold get_next_job
    rw [hpick]
    dsimp only
    rw [if_pos (by simp [strTruthy, hww])]
    rfl

/-- C3 witness: a QUEUED job whose started_at is already non-null (set to 1 in
an earlier round) gets started_at restamped to 9 when claimed again. -/
theorem started_at_stamp_spec_witness :
    (get_next_job [requeuedJob] 9 none (some wk2)).1.map Job.started_at = some (some 9) :=
  (started_at_stamp_spec baseJob 9 none none none none none none).2 [requeuedJob] none wk2
    requeuedJob (by decide) (by decide)

/-- C9 counterexample: a second COMPLETED transition at a later time changes
completed_at after it was first set — the stamp is re-applied, not set-once. -/
theorem repeated_completion_restamps :
    ((update_job [processingJob] 3 idP (some .completed) none none none none
        none).2.find? (fun x => x.id == idP)).map Job.completed_at = some (some 3) ∧
    ((update_job (update_job [processingJob] 3 idP (some .completed) none none none none
        none).2 7 idP (some .completed) none none none none none).2.find?
      (fun x => x.id == idP)).map Job.completed_at = some (some 7) := by
  decide

/-- C9 (amended): completed_at is stamped with the current time at exactly the
updates whose supplied status is terminal (COMPLETED or FAILED) — a repeated
terminal transition overwrites the earlier stamp — and is left unchanged by
every other update. -/
theorem completed_at_stamp_spec (j : Job) (now : Int) (s : Option JobStatus) (p : Option Int)
    (m e : Option String) (r : Option JsonData) (w : Option String) :
    (updateJobFields j now s p m e r w).completed_at =
      (if s = some .completed ∨ s = some .failed then some now else j.completed_at) := by
  unfold updateJobFields
  rw [applyFieldUpdates_completed_at]
  cases s with
  | none => simp
  | some st =>
    dsimp only
    rw [applyStatusHook_completed_at]
    simp only [Option.some.injEq]

/-- C5: update_progress on an existing job always succeeds and stores the
supplied value clamped into [0, 100], for any integer, without rejecting it. -/
theorem update_progress_clamps (db : List Job) (now : Int) (id : String) (p : Int)
    (m : Option String) (j : Job) (h : db.find? (fun x => x.id == id) = some j) :
    (update_progress db now id p m).1 = true ∧
    ((update_progress db now id p m).2.find? (fun x => x.id == id)).map Job.progress =
      some (max 0 (min 100 p)) ∧
    0 ≤ max 0 (min 100 p) ∧ max 0 (min 100 p) ≤ 100 := by
  unfold update_progress update_job
  rw [h]
  dsimp only
  refine ⟨rfl, ?_, by omega, by omega⟩
  rw [find?_map_update db id j _ h (updateJobFields_id j now none (some p) m none none none)]
  unfold updateJobFields
  dsimp only
  rw [Option.map_some', applyFieldUpdates_progress]

/-- C5 witness: updating progress of the queued sample job to 150 succeeds and
stores the clamped value. -/
theorem update_progress_clamps_witness :
    (update_progress [baseJob] 2 idA 150 none).1 = true ∧
    ((update_progress [baseJob] 2 idA 150 none).2.find? (fun x => x.id == idA)).map
      Job.progress = some (max 0 (min 100 150)) ∧
    (0:Int) ≤ max 0 (min 100 150) ∧ (max 0 (min 100 (150:Int))) ≤ 100 :=
  update_progress_clamps [baseJob] 2 idA 150 none baseJob (by decide)

/-- C6: a FAILED transition with no explicit error stores the non-null default
error string, stamps completed_at, and sets the default message when none is
supplied and none is present; an explicitly supplied error string is stored. -/
theorem failed_transition_defaults (j : Job) (now : Int) (p : Option Int) (m : Option String)
    (r : Option JsonData) (w : Option String) :
    (updateJobFields j now (some .failed) p m none r w).error = some unknownErrorMsg ∧
    (updateJobFields j now (some .failed) p m none r w).completed_at = some now ∧
    (m = none → strTruthy j.message = false →
      (updateJobFields j now (some .failed) p m none r w).message = some failedMsg) ∧
    (∀ es : String,
      (updateJobFields j now (some .failed) p m (some es) r w).error = some es) := by
  refine ⟨?_, ?_, ?_, ?_⟩
  · unfold updateJobFields
    rw [applyFieldUpdates_error]
    dsimp only
    rw [applyStatusHook_failed, mark_failed_error]
    rfl
  · unfold updateJobFields
    rw [applyFieldUpdates_completed_at]
    dsimp only
    rw [applyStatusHook_failed, mark_failed_completed_at]
  · intro hm hmsg
    subst hm
    unfold updateJobFields
    rw [applyFieldUpdates_message]
    dsimp only
    rw [applyStatusHook_failed, mark_failed_message_default]
    exact hmsg
  · intro es
    unfold updateJobFields
    rw [applyFieldUpdates_error]

/-- C6 witness: failing the processing sample job with no error and no message
stores the default error and default message, and stamps completed_at. -/
theorem failed_transition_defaults_witness :
    (updateJobFields processingJob 4 (some .failed) none none none none none).error
      = some unknownErrorMsg ∧
    (updateJobFields processingJob 4 (some .failed) none none none none none).completed_at
      = some 4 ∧
    (updateJobFields processingJob 4 (some .failed) none none none none none).message
      = some failedMsg :=
  ⟨(failed_transition_defaults processingJob 4 none none none none).1,
   (failed_transition_defaults processingJob 4 none none none none).2.1,
   (failed_transition_defaults processingJob 4 none none none none).2.2.1 rfl (by decide)⟩

theorem cleanupTarget_none_iff (now days : Int) (j : Job) :
    cleanupTarget now days none j = true ↔
      ((j.status = .completed ∨ j.status = .failed) ∧ j.created_at < now - days * 86400) := by
  unfold cleanupTarget Job.is_finished
  rw [Bool.and_eq_true, decide_eq_true_eq, decide_eq_true_eq]
  exact and_comm

theorem length_filter_add_length_filter_not (l : List Job) (f : Job → Bool) :
    (l.filter f).length + (l.filter fun x => !(f x)).length = l.length := by
  induction l with
  | nil => rfl
  | cons a rest ih =>
    cases hf : f a <;> simp [List.filter_cons, hf] <;> omega

theorem filter_not_then_filter_nil (l : List Job) (f : Job → Bool) :
    (l.filter fun x => !(f x)).filter f = [] := by
  induction l with
  | nil => rfl
  | cons a rest ih =>
    cases hf : f a <;> simp [List.filter_cons, hf, ih]

/-- C7: with no status filter, cleanup keeps exactly the jobs that are not
(terminal and created before the cutoff), removes nothing else, reports the
number removed, and an immediate second run removes zero. -/
theorem cleanup_old_jobs_spec (db : List Job) (now days : Int) :
    (∀ j : Job, j ∈ (cleanup_old_jobs db now days none).2 ↔
      (j ∈ db ∧ ¬((j.status = .completed ∨ j.status = .failed) ∧
        j.created_at < now - days * 86400))) ∧
    (cleanup_old_jobs db now days none).1 + (cleanup_old_jobs db now days none).2.length
      = db.length ∧
    (cleanup_old_jobs (cleanup_old_jobs db now days none).2 now days none).1 = 0 := by
  refine ⟨?_, ?_, ?_⟩
  · intro j
    unfold cleanup_old_jobs
    dsimp only
    rw [List.mem_filter]
    constructor
    · rintro ⟨h1, h2⟩
      refine ⟨h1, fun hc => ?_⟩
      rw [(cleanupTarget_none_iff now days j).mpr hc] at h2
      simp at h2
    · rintro ⟨h1, hc⟩
      refine ⟨h1, ?_⟩
      cases ht : cleanupTarget now days none j
      · rfl
      · exact absurd ((cleanupTarget_none_iff now days j).mp ht) hc
  · unfold cleanup_old_jobs
    dsimp only
    exact length_filter_add_length_filter_not db (cleanupTarget now days none)
  · unfold cleanup_old_jobs
    dsimp only
    rw [filter_not_then_filter_nil db (cleanupTarget now days none)]
    rfl

/-- C7 witness: with an old completed job and a fresh queued job, the fresh job
survives the cleanup and a second immediate cleanup removes zero jobs. -/
theorem cleanup_old_jobs_spec_witness :
    freshJob ∈ (cleanup_old_jobs [oldDoneJob, freshJob] 200000 1 none).2 ∧
    (cleanup_old_jobs (cleanup_old_jobs [oldDoneJob, freshJob] 200000 1 none).2
      200000 1 none).1 = 0 :=
  ⟨((cleanup_old_jobs_spec [oldDoneJob, freshJob] 200000 1).1 freshJob).mpr (by decide),
   (cleanup_old_jobs_spec [oldDoneJob, freshJob] 200000 1).2.2⟩

/-- C8 counterexample: a QUEUED job that was never started (started_at null)
cannot be deleted — the endpoint rejects it with the 400 signal and the store
is unchanged — contradicting that QUEUED-never-started jobs may be deleted. -/
theorem delete_queued_never_started_rejected :
    baseJob.status = JobStatus.queued ∧ baseJob.started_at = none ∧
    delete_job [baseJob] idA = (some ApiError.badRequest, [baseJob]) := by
  decide

/-- C8 (amended): delete fails with the 400 signal on every job whose status is
non-terminal — QUEUED and PENDING included, whether or not it was ever started
— leaving the store untouched; only terminal (COMPLETED/FAILED) jobs can be
deleted, and after deleting one a get on its id reports not-found. -/
theorem delete_job_spec (db : List Job) (id : String) (j : Job)
    (h : get_job db id = some j) :
    (j.is_active = true → delete_job db id = (some ApiError.badRequest, db)) ∧
    (j.is_active = false →
      (delete_job db id).1 = none ∧ get_job (delete_job db id).2 id = none) ∧
    j.is_active = !j.is_finished := by
  refine ⟨?_, ?_, ?_⟩
  · intro ha
    unfold delete_job
    rw [h]
    dsimp only
    rw [if_pos ha]
  · intro hna
    unfold delete_job
    rw [h]
    dsimp only
    rw [if_neg (by simp [hna])]
    refine ⟨rfl, ?_⟩
    dsimp only
    simp [get_job, List.find?_eq_none, List.mem_filter]
  · cases hs : j.status <;> simp [Job.is_active, Job.is_finished, hs]

/-- C8 witness: deleting the completed sample job succeeds and a subsequent get
on its id reports not-found; a completed job is not active. -/
theorem delete_job_spec_witness :
    ((delete_job [completedJob] idC).1 = none ∧
      get_job (delete_job [completedJob] idC).2 idC = none) ∧
    completedJob.is_active = !completedJob.is_finished :=
  ⟨(delete_job_spec [completedJob] idC completedJob (by decide)).2.1 (by decide),
   (delete_job_spec [completedJob] idC completedJob (by decide)).2.2⟩

/-- C4: with the priority-10 job enqueued before the priority-1 job, claim_next
returns the priority-10 job first and the priority-1 job on the next call; in
general any job returned by get_next_job is drawn (up to the claim mutation,
which preserves id, priority and creation time) from the QUEUED/PENDING
candidate set, and no candidate strictly precedes it in priority-descending,
creation-ascending order. -/
theorem claim_next_priority_order :
    (get_next_job db4 3 none (some wk1)).1.map Job.id = some idHi ∧
    (get_next_job (get_next_job db4 3 none (some wk1)).2 4 none (some wk2)).1.map Job.id
      = some idLo ∧
    (∀ (db : List Job) (now : Int) (ts : Option (List String)) (wid : Option String)
      (jr : Job), (get_next_job db now ts wid).1 = some jr →
      ∃ j0, j0 ∈ eligibleJobs db ts ∧ jr.id = j0.id ∧ jr.priority = j0.priority ∧
        jr.created_at = j0.created_at ∧ (j0.status = .queued ∨ j0.status = .pending) ∧
        ∀ k ∈ eligibleJobs db ts, ¬ jobBefore k j0) := by
  refine ⟨by decide, by decide, ?_⟩
  intro db now ts wid jr hret
  unfold get_next_job at hret
  cases hpick : pickBest (eligibleJobs db ts) with
  | none =>
    rw [hpick] at hret
    simp at hret
  | some j0 =>
    rw [hpick] at hret
    dsimp only at hret
    have hmem := pickBest_mem hpick
    have hbest := pickBest_best (eligibleJobs db ts) j0 hpick
    have hstat := mem_eligible_status hmem
    by_cases hw : strTruthy wid = true
    · rw [if_pos hw] at hret
      dsimp only at hret
      have hjr : Job.mark_started { j0 with status := JobStatus.processing } now wid = jr :=
        Option.some.inj hret
      subst hjr
      exact ⟨j0, hmem, rfl, rfl, rfl, hstat, hbest⟩
    · rw [if_neg hw] at hret
      dsimp only at hret
      have hjr : j0 = jr := Option.some.inj hret
      subst hjr
      exact ⟨j0, hmem, rfl, rfl, rfl, hstat, hbest⟩

/-- C4 witness: the job returned by the first claim against the two-job store
corresponds to an eligible candidate with id hi, priority 10, creation time 1,
which no candidate strictly precedes. -/
theorem claim_next_priority_order_witness :
    ∃ j0, j0 ∈ eligibleJobs db4 none ∧ idHi = j0.id ∧ (10:Int) = j0.priority ∧
      (1:Int) = j0.created_at ∧ (j0.status = .queued ∨ j0.status = .pending) ∧
      ∀ k ∈ eligibleJobs db4 none, ¬ jobBefore k j0 :=
  claim_next_priority_order.2.2 db4 3 none (some wk1)
    { id := idHi, status := .processing, progress := 0, job_type := musicType,
      priority := 10, request_data := some [], result_data := none, message := none,
      error := none, created_at := 1, started_at := some 3, completed_at := none,
      worker_id := some wk1 } (by decide)

/-- C10: get_next_job called without a worker id leaves the store unchanged (so
no field of any job is mutated and a repeated call at any later time returns
the same job), and any job it returns is a QUEUED/PENDING row of the store; the
claim mutation happens only when a worker id is supplied. -/
theorem claim_next_without_worker_is_pure (db : List Job) (now now2 : Int)
    (ts : Option (List String)) :
    (get_next_job db now ts none).2 = db ∧
    (get_next_job db now ts none).1 = (get_next_job db now2 ts none).1 ∧
    (∀ j, (get_next_job db now ts none).1 = some j →
      j ∈ db ∧ (j.status = .queued ∨ j.status = .pending)) := by
  unfold get_next_job
  cases hpick : pickBest (eligibleJobs db ts) with
  | none =>
    refine ⟨rfl, rfl, ?_⟩
    intro j hj
    simp at hj
  | some j0 =>
    dsimp only
    rw [if_neg (show ¬ (strTruthy none = true) by simp [strTruthy])]
    refine ⟨rfl, rfl, ?_⟩
    intro j hj
    have hjj : some j0 = some j := hj
    have hj2 : j0 = j := Option.some.inj hjj
    subst hj2
    exact ⟨mem_eligible_mem_db (pickBest_mem hpick), mem_eligible_status (pickBest_mem hpick)⟩

/-- C10 witness: the queued sample job is returned unclaimed and is a QUEUED
row of the store. -/
theorem claim_next_without_worker_is_pure_witness :
    baseJob ∈ [baseJob] ∧ (baseJob.status = .queued ∨ baseJob.status = .pending) :=
  (claim_next_without_worker_is_pure [baseJob] 3 4 none).2.2 baseJob (by decide)

end Musicgen
